import Mathlib

/-!
Verification development for the Quick-Start-in-FastAPI exercise repository.

Each Python module relevant to the checked claims is shallowly embedded as
executable Lean definitions: request/response models become structures,
fallible handlers return `Except`, the database session and the stored
tables are threaded explicitly as state.  Mechanics delegated to external
libraries (bcrypt hashing, JWT encoding, message localization) are taken
as function parameters; relational mechanics fully determined by the
repository sources (which keyword arguments a declaratively mapped model
accepts, which keys an UPDATE statement may set) are embedded explicitly.
-/

set_option maxRecDepth 4000

namespace FastAPIRepo

/-- Model of `fastapi.HTTPException`: a status code plus a detail string. -/
structure HTTPError where
  status_code : Nat
  detail : String
deriving DecidableEq, Repr

namespace GT

/-! ## global_template/app/exceptions: the per-domain exception hierarchy

Every class in `core.py`, `todo_exceptions.py`, `user_exceptions.py`,
`tag_exceptions.py`, `userprofile_exceptions.py` and `db_exceptions.py`
declares three class attributes: `status_code`, `error_code`,
`message_key`.  Each class is embedded as one `ExcClass` record holding
exactly those attributes. -/

/-- Class-level data of one exception class of the hierarchy:
`status_code`, `error_code` and default `message_key`. -/
structure ExcClass where
  status_code : Nat
  error_code : String
  message_key : String
deriving DecidableEq, Repr

/-- Source class `AppBaseException` (exceptions/core.py). -/
def appBaseExceptionClass : ExcClass :=
  ⟨500, "app_error", "errors.app.general"⟩

/-- Source class `ToDoException` (exceptions/todo_exceptions.py). -/
def toDoExceptionClass : ExcClass :=
  ⟨500, "todo_error", "errors.todo.general"⟩

/-- Source class `ToDoNotFoundError`. -/
def toDoNotFoundErrorClass : ExcClass :=
  ⟨404, "todo_not_found", "errors.todo.not_found"⟩

/-- Source class `ToDoAlreadyExistsError`. -/
def toDoAlreadyExistsErrorClass : ExcClass :=
  ⟨409, "todo_already_exists", "errors.todo.already_exists"⟩

/-- Source class `ToDoValidationError`. -/
def toDoValidationErrorClass : ExcClass :=
  ⟨422, "todo_validation_error", "errors.todo.validation_error"⟩

/-- Source class `ToDoIntegrityError`. -/
def toDoIntegrityErrorClass : ExcClass :=
  ⟨400, "todo_integrity_error", "errors.todo.integrity_error"⟩

/-- Source class `UserException` (exceptions/user_exceptions.py). -/
def userExceptionClass : ExcClass :=
  ⟨500, "user_error", "errors.user.general"⟩

/-- Source class `UserNotFoundError`. -/
def userNotFoundErrorClass : ExcClass :=
  ⟨404, "user_not_found", "errors.user.not_found"⟩

/-- Source class `UserAlreadyExistsError`. -/
def userAlreadyExistsErrorClass : ExcClass :=
  ⟨409, "user_already_exists", "errors.user.already_exists"⟩

/-- Source class `UserValidationError`. -/
def userValidationErrorClass : ExcClass :=
  ⟨422, "user_validation_error", "errors.user.validation_error"⟩

/-- Source class `UserIntegrityError`. -/
def userIntegrityErrorClass : ExcClass :=
  ⟨400, "user_integrity_error", "errors.user.integrity_error"⟩

/-- Source class `TagException` (exceptions/tag_exceptions.py). -/
def tagExceptionClass : ExcClass :=
  ⟨500, "tag_error", "errors.tag.general"⟩

/-- Source class `TagNotFoundError`. -/
def tagNotFoundErrorClass : ExcClass :=
  ⟨404, "tag_not_found", "errors.tag.not_found"⟩

/-- Source class `TagAlreadyExistsError`. -/
def tagAlreadyExistsErrorClass : ExcClass :=
  ⟨409, "tag_already_exists", "errors.tag.already_exists"⟩

/-- Source class `TagValidationError`. -/
def tagValidationErrorClass : ExcClass :=
  ⟨422, "tag_validation_error", "errors.tag.validation_error"⟩

/-- Source class `TagIntegrityError`. -/
def tagIntegrityErrorClass : ExcClass :=
  ⟨400, "tag_integrity_error", "errors.tag.integrity_error"⟩

/-- Source class `UserProfileException` (exceptions/userprofile_exceptions.py). -/
def userProfileExceptionClass : ExcClass :=
  ⟨500, "userprofile_error", "errors.userprofile.general"⟩

/-- Source class `UserProfileNotFoundError`. -/
def userProfileNotFoundErrorClass : ExcClass :=
  ⟨404, "userprofile_not_found", "errors.userprofile.not_found"⟩

/-- Source class `UserProfileAlreadyExistsError`. -/
def userProfileAlreadyExistsErrorClass : ExcClass :=
  ⟨409, "userprofile_already_exists", "errors.userprofile.already_exists"⟩

/-- Source class `UserProfileValidationError`. -/
def userProfileValidationErrorClass : ExcClass :=
  ⟨422, "userprofile_validation_error", "errors.userprofile.validation_error"⟩

/-- Source class `UserProfileIntegrityError`. -/
def userProfileIntegrityErrorClass : ExcClass :=
  ⟨400, "userprofile_integrity_error", "errors.userprofile.integrity_error"⟩

/-- Source class `DBException` (exceptions/db_exceptions.py). -/
def dbExceptionClass : ExcClass :=
  ⟨500, "db_error", "errors.db.general"⟩

/-- Source class `DBConnectionError` (an extra kind, status 503). -/
def dbConnectionErrorClass : ExcClass :=
  ⟨503, "db_connection_error", "errors.db.connection_error"⟩

/-- Source class `DBRecordNotFound`. -/
def dbRecordNotFoundClass : ExcClass :=
  ⟨404, "db_record_not_found", "errors.db.record_not_found"⟩

/-- Source class `DBAlreadyExistsError`. -/
def dbAlreadyExistsErrorClass : ExcClass :=
  ⟨409, "db_already_exists", "errors.db.already_exists"⟩

/-- Source class `DBValidationError`. -/
def dbValidationErrorClass : ExcClass :=
  ⟨422, "db_validation_error", "errors.db.validation_error"⟩

/-- Source class `DBIntegrityError`. -/
def dbIntegrityErrorClass : ExcClass :=
  ⟨400, "db_integrity_error", "errors.db.integrity_error"⟩

/-! ## global_template/app/exceptions/core.py: the exception handler -/

/-- An exception value reaching `app_exception_handler`: either an instance
of an `AppBaseException` subclass (carrying its class data and the resolved
`message_key`), or any other Python exception (opaque). -/
inductive RaisedExc where
  | appExc (cls : ExcClass) (message_key : String)
  | otherExc (tag : String)
deriving DecidableEq, Repr

/-- Model of `fastapi.responses.JSONResponse` as produced by the handler:
the HTTP status and the `ErrorResponseModel` body fields
(exceptions/models.py). -/
structure JSONResp where
  status_code : Nat
  body_status_code : Nat
  body_message : String
  body_error_code : String
deriving DecidableEq, Repr

/-- Source `app_exception_handler` (exceptions/core.py).  For an
`AppBaseException` it localizes the message (`localize` stands for the
babel `_` translation plus `.format`) and returns a `JSONResponse` whose
status is `exc.status_code`; any other exception is re-raised
(returned in `Except.error`). -/
def app_exception_handler (localize : String → String) (exc : RaisedExc) :
    Except RaisedExc JSONResp :=
  match exc with
  | .appExc cls mk =>
      .ok ⟨cls.status_code, cls.status_code, localize mk, cls.error_code⟩
  | .otherExc t => .error (.otherExc t)

/-! ## global_template/app/repositories/base_repository.py

`BaseRepository` is generic in the ORM-mapped type.  A stored record is a
row: an integer primary key `id` (from the declarative `Base`) plus the
remaining columns, modelled as a function from a column-name type `K` to a
cell type `W`.  An update dictionary maps each column either to a new
value (`some w` = key present in the dict) or to `none` (key absent). -/

/-- One stored row: the `id` primary key plus the other columns. -/
structure Row (σ : Type) where
  id : Nat
  data : σ
deriving DecidableEq, Repr

/-- Source `BaseRepository.add_one`: construct the object, `session.add`,
`flush` (which assigns the autoincremented id).  Returns the new table,
the next free id and the inserted row. -/
def repo_add_one {σ : Type} (t : List (Row σ)) (nextId : Nat) (obj : σ) :
    List (Row σ) × Nat × Row σ :=
  (t ++ [⟨nextId, obj⟩], nextId + 1, ⟨nextId, obj⟩)

/-- Source `BaseRepository.get_by_id`: `select().where(id == obj_id)` and
`.scalars().first()` — the first stored row whose id equals `i`, if any. -/
def repo_get_by_id {σ : Type} (t : List (Row σ)) (i : Nat) : Option (Row σ) :=
  t.find? (fun r => r.id == i)

/-- Application of an UPDATE dictionary to the non-id columns of a row:
`values(**update_data)` sets exactly the keys present in the dictionary
and leaves every other column unchanged. -/
def applyDict {K W : Type} (d : K → Option W) (row : K → W) : K → W :=
  fun k => (d k).getD (row k)

/-- Source `BaseRepository.update`: `update().where(id == obj_id).values(**update_data)` —
every row whose id equals `i` gets the dictionary applied; all other rows
are untouched. -/
def repo_update {K W : Type} (t : List (Row (K → W))) (i : Nat) (d : K → Option W) :
    List (Row (K → W)) :=
  t.map (fun r => if r.id == i then ⟨r.id, applyDict d r.data⟩ else r)

/-- Source `BaseRepository.delete`: `delete().where(id == obj_id)`; the
returned Bool is `result.rowcount > 0`, i.e. whether at least one row
matched. -/
def repo_delete {σ : Type} (t : List (Row σ)) (i : Nat) : List (Row σ) × Bool :=
  (t.filter (fun r => r.id != i), t.any (fun r => r.id == i))

/-! ## global_template/app/utils/unitofwork.py

The database is abstracted as a value of a type `α`; a live session holds
the pending (session-local, not yet committed) state, while the durable
(committed) state is threaded separately.  `commit` persists the pending
state, `rollback` resets the pending state to the durable one, `close`
marks the session closed. -/

/-- An open SQLAlchemy `AsyncSession`: the pending state plus a closed
flag. -/
structure DbSession (α : Type) where
  pending : α
  closed : Bool
deriving DecidableEq, Repr

/-- Source `AsyncSession.commit`: the durable state becomes the pending
state. -/
def sessionCommit {α : Type} (_durable : α) (s : DbSession α) : α × DbSession α :=
  (s.pending, s)

/-- Source `AsyncSession.rollback`: the pending state is reset to the
durable state. -/
def sessionRollback {α : Type} (durable : α) (s : DbSession α) : α × DbSession α :=
  (durable, { s with pending := durable })

/-- Source `AsyncSession.close`. -/
def sessionClose {α : Type} (s : DbSession α) : DbSession α :=
  { s with closed := true }

/-- Source `UnitOfWork` state (global_template variant): the optional
session handle plus the four repository references, each `none` until
`__aenter__` assigns it and reset to `none` by `__aexit__`
(`_clear_repos`).  A repository reference carries no data of its own in
this model, so it is represented as `Option Unit`. -/
structure UnitOfWork (α : Type) where
  _session : Option (DbSession α)
  _todo : Option Unit
  _user : Option Unit
  _userprofile : Option Unit
  _tag : Option Unit
deriving DecidableEq, Repr

/-- Source `UnitOfWork.__init__`: session and all repository references
start as `None`. -/
def UnitOfWork.init {α : Type} : UnitOfWork α :=
  ⟨none, none, none, none, none⟩

/-- Source `UnitOfWork._get_repo`: raises `RuntimeError` (modelled as the
repository name in `Except.error`) when the reference is `None`. -/
def uow_get_repo (repo : Option Unit) (name : String) : Except String Unit :=
  match repo with
  | none => .error name
  | some r => .ok r

/-- Source property `UnitOfWork.todo`. -/
def uow_todo {α : Type} (u : UnitOfWork α) : Except String Unit :=
  uow_get_repo u._todo "todo"

/-- Source property `UnitOfWork.user`. -/
def uow_user {α : Type} (u : UnitOfWork α) : Except String Unit :=
  uow_get_repo u._user "user"

/-- Source property `UnitOfWork.userprofile`. -/
def uow_userprofile {α : Type} (u : UnitOfWork α) : Except String Unit :=
  uow_get_repo u._userprofile "userprofile"

/-- Source property `UnitOfWork.tag`. -/
def uow_tag {α : Type} (u : UnitOfWork α) : Except String Unit :=
  uow_get_repo u._tag "tag"

/-- Source `UnitOfWork.__aenter__`: creates a fresh session from the
factory (its pending state starts as the durable state `db`) and
initializes the four repositories. -/
def uow_aenter {α : Type} (db : α) (u : UnitOfWork α) : UnitOfWork α :=
  { u with
    _session := some ⟨db, false⟩
    _todo := some ()
    _user := some ()
    _userprofile := some ()
    _tag := some () }

/-- Body of the global_template `UnitOfWork.__aexit__` once the session is
known to exist: rollback when an exception was raised in the block,
commit otherwise; in both cases the session is then closed. -/
def uow_aexit_session {α : Type} (excRaised : Bool) (durable : α)
    (s : DbSession α) : α × DbSession α :=
  if excRaised then
    let (db2, s2) := sessionRollback durable s
    (db2, sessionClose s2)
  else
    let (db2, s2) := sessionCommit durable s
    (db2, sessionClose s2)

/-- Source `UnitOfWork.__aexit__` (global_template variant): returns
immediately when no session exists; otherwise commits or rolls back,
closes the session, sets `_session = None` and clears all repository
references.  The closed session is returned alongside for observability. -/
def uow_aexit {α : Type} (excRaised : Bool) (durable : α) (u : UnitOfWork α) :
    α × UnitOfWork α × Option (DbSession α) :=
  match u._session with
  | none => (durable, u, none)
  | some s =>
      let (db2, s2) := uow_aexit_session excRaised durable s
      (db2, ⟨none, none, none, none, none⟩, some s2)

end GT

namespace Step9

/-! ## step_9/lesson_9_2/app/utils/unitofwork.py

This variant never commits in `__aexit__`: it unconditionally rolls back
and closes, regardless of whether the block raised. -/

/-- Source `UnitOfWork.__aexit__` (step_9/lesson_9_2 variant):
`await self.rollback(); await self.session.close()` — unconditional. -/
def uow_aexit {α : Type} (durable : α) (s : GT.DbSession α) :
    α × GT.DbSession α :=
  let (db2, s2) := GT.sessionRollback durable s
  (db2, GT.sessionClose s2)

end Step9

namespace L5111

/-- Source `UnitOfWork.__aexit__` (5/5-1/5-1-11 variant): identical to the
step_9 variant — unconditional rollback, then close. -/
def uow_aexit {α : Type} (durable : α) (s : GT.DbSession α) :
    α × GT.DbSession α :=
  let (db2, s2) := GT.sessionRollback durable s
  (db2, GT.sessionClose s2)

end L5111

namespace L5214

/-- Source `UnitOfWork.__aexit__` (5/5-2/5-2-14 variant): identical to the
step_9 variant — unconditional rollback, then close. -/
def uow_aexit {α : Type} (durable : α) (s : GT.DbSession α) :
    α × GT.DbSession α :=
  let (db2, s2) := GT.sessionRollback durable s
  (db2, GT.sessionClose s2)

end L5214

namespace GT

/-! ## global_template/app/api/schemas and db/models: the ToDo entity

`ToDoRow` holds the mapped columns of the `ToDo` ORM model other than the
primary key (`title`, `description`, `completed`, `user_id`).  The
`created_at`/`updated_at` timestamps and the `user`/`tags` relationship
attributes are outside this model: they are filled by the database and the
relationship loader, not by the service logic under verification. -/

/-- Mapped non-key columns of the `ToDo` ORM model (db/models.py). -/
structure ToDoRow where
  title : String
  description : Option String
  completed : Bool
  user_id : Nat
deriving DecidableEq, Repr

/-- Source schema `ToDoCreate` (api/schemas/todo.py): `title`,
`description`, `completed` from `ToDoBase`, plus `user_id` and
`tag_ids`. -/
structure ToDoCreate where
  title : String
  description : Option String
  completed : Bool
  user_id : Nat
  tag_ids : Option (List Nat)
deriving DecidableEq, Repr

/-- Source schema `ToDoUpdate`: every field optional, `None` meaning the
field is not part of the partial update. -/
structure ToDoUpdate where
  title : Option String
  description : Option String
  completed : Option Bool
  user_id : Option Nat
  tag_ids : Option (List Nat)
deriving DecidableEq, Repr

/-- Source schema `ToDoFromDB` restricted to the scalar fields the claims
are about: `id` plus the row columns. -/
structure ToDoFromDB where
  id : Nat
  title : String
  description : Option String
  completed : Bool
  user_id : Nat
deriving DecidableEq, Repr

/-- Projection of a stored row to the response schema
(`ToDoFromDB.model_validate`). -/
def toDoFromDBOf (r : Row ToDoRow) : ToDoFromDB :=
  ⟨r.id, r.data.title, r.data.description, r.data.completed, r.data.user_id⟩

/-- Python exceptions raised by the data and serialization layers below
the service: the declarative constructor rejecting an unknown keyword,
statement compilation rejecting an unmapped column, a database integrity
violation, or pydantic refusing to validate against a model that is not
fully defined. -/
inductive PyErr where
  | typeError (kw : String)
  | compileError (kw : String)
  | integrityError
  | pydanticUserError (model : String)
deriving DecidableEq, Repr

/-- Errors escaping a service call: a `RuntimeError` from
`UnitOfWork._get_repo` (carrying the repository name), an
`AppBaseException` subclass (carrying its class data), a raw
`fastapi.HTTPException`, or an uncaught Python exception propagating out
of a service method that has no try block around it. -/
inductive SvcError where
  | runtime (repoName : String)
  | app (cls : ExcClass)
  | http (e : HTTPError)
  | py (e : PyErr)
deriving DecidableEq, Repr

/-- Attribute names of the declaratively mapped `ToDo` class: the columns
and relationships from db/models.py plus `id`, `created_at`, `updated_at`
from the common `Base`.  The default declarative constructor accepts
exactly these as keyword arguments and raises `TypeError` for any
other key. -/
def toDoModelAttrs : List String :=
  ["id", "created_at", "updated_at", "title", "description", "completed",
   "user_id", "user", "tags"]

/-- Keys of `ToDoCreate.model_dump()`: all five schema fields, always
present in the dumped dictionary. -/
def toDoCreateDumpKeys : List String :=
  ["title", "description", "completed", "user_id", "tag_ids"]

/-- Construction `self.model(**obj_data)` inside `add_one` for the ToDo
repository: the declarative constructor checks every key of the dumped
dictionary against the mapped attributes and raises `TypeError` at the
first unknown one; otherwise the row is built from the column fields.
(Foreign-key enforcement by the database is outside this model.) -/
def toDoCtor (tc : ToDoCreate) : Except PyErr ToDoRow :=
  match toDoCreateDumpKeys.find? (fun k => !toDoModelAttrs.contains k) with
  | some k => .error (.typeError k)
  | none => .ok ⟨tc.title, tc.description, tc.completed, tc.user_id⟩

/-- Stored state of the `todos` table: the rows plus the next
autoincrement id. -/
structure TodoDB where
  rows : List (Row ToDoRow)
  nextId : Nat
deriving DecidableEq, Repr

/-- Source `ToDoService.create_todo` (services/todo_service.py):
`todo_data = todo_create.model_dump()`; inside the unit of work,
`add_one(todo_data)` then `commit`; an `IntegrityError` becomes
`ToDoIntegrityError`, any other exception becomes an HTTP 500; on an
exception the unit of work rolls the session back, so the durable state
is returned unchanged. -/
def create_todo (db : TodoDB) (tc : ToDoCreate) :
    Except SvcError ToDoFromDB × TodoDB :=
  match toDoCtor tc with
  | .error .integrityError => (.error (.app toDoIntegrityErrorClass), db)
  | .error _ => (.error (.http ⟨500, "Failed to create todo"⟩), db)
  | .ok row =>
      let (rows2, next2, r) := repo_add_one db.rows db.nextId row
      (.ok (toDoFromDBOf r), ⟨rows2, next2⟩)

/-- Forward-referenced annotation names of the `ToDoFromDB` schema
(api/schemas/todo.py): `user : "UserFromDB"` and
`tags : List["TagFromDB"]`. -/
def toDoFromDBForwardRefs : List String :=
  ["UserFromDB", "TagFromDB"]

/-- Names bound in the todo schema module at runtime.  The imports of
`UserFromDB` and `TagFromDB` are guarded by `TYPE_CHECKING`, so they
never execute and those names are absent here. -/
def todoSchemaRuntimeNames : List String :=
  ["datetime", "List", "TYPE_CHECKING", "BaseModel", "ConfigDict",
   "ToDoBase", "ToDoUpdate", "ToDoCreate", "ToDoFromDB"]

/-- Source call `ToDoFromDB.model_validate(todo)`.  The schema carries
forward references resolvable only from the runtime module namespace and
no `model_rebuild()` call exists in the repository, so pydantic raises
`PydanticUserError` (model not fully defined) for every row; even with
resolved references, reading the lazy `user`/`tags` relationships of a
row held by an `AsyncSession` raises `MissingGreenlet`.  The call
therefore raises instead of producing the projected record. -/
def toDoFromDB_model_validate (r : Row ToDoRow) : Except PyErr ToDoFromDB :=
  if toDoFromDBForwardRefs.all (fun n => todoSchemaRuntimeNames.contains n) then
    .ok (toDoFromDBOf r)
  else .error (.pydanticUserError "ToDoFromDB")

/-- Source `ToDoService.get_todo_by_id`: fetch by id inside a unit of
work; `None` becomes `ToDoNotFoundError`; a found row goes through
`ToDoFromDB.model_validate`, whose raise propagates uncaught (the method
has no try block). -/
def get_todo_by_id (db : TodoDB) (i : Nat) :
    Except SvcError ToDoFromDB × TodoDB :=
  match repo_get_by_id db.rows i with
  | none => (.error (.app toDoNotFoundErrorClass), db)
  | some r =>
      match toDoFromDB_model_validate r with
      | .error e => (.error (.py e), db)
      | .ok res => (.ok res, db)

/-- Source `ToDoService.delete_todo`: fetch by id (raising
`ToDoNotFoundError` when absent, with the unit of work rolling back on
the way out), delete, raise `DBException` when no row was removed,
commit. -/
def delete_todo (db : TodoDB) (i : Nat) : Except SvcError Unit × TodoDB :=
  match repo_get_by_id db.rows i with
  | none => (.error (.app toDoNotFoundErrorClass), db)
  | some _ =>
      let (rows2, deleted) := repo_delete db.rows i
      if deleted then
        (.ok (), ⟨rows2, db.nextId⟩)
      else (.error (.app dbExceptionClass), db)

/-- Emptiness test of `update_data = {k: v for k, v in
todo_update.model_dump().items() if v is not None}`. -/
def toDoUpdateDataEmpty (u : ToDoUpdate) : Bool :=
  u.title.isNone && u.description.isNone && u.completed.isNone &&
    u.user_id.isNone && u.tag_ids.isNone

/-- Application of the filtered update dictionary to one row: a field
present in the dictionary (not `None` in the schema) is written, every
other column keeps its stored value. -/
def applyToDoUpdate (u : ToDoUpdate) (r : ToDoRow) : ToDoRow :=
  { title := u.title.getD r.title
    description := match u.description with
      | some d => some d
      | none => r.description
    completed := u.completed.getD r.completed
    user_id := u.user_id.getD r.user_id }

/-- The repository UPDATE issued by `update_todo`:
`values(**update_data)` accepts only mapped columns, and a present
`tag_ids` key is not a column of `ToDo`, so statement compilation fails;
otherwise every row with the given id gets the dictionary applied. -/
def todo_repo_update (rows : List (Row ToDoRow)) (i : Nat) (u : ToDoUpdate) :
    Except PyErr (List (Row ToDoRow)) :=
  if u.tag_ids.isSome then .error (.compileError "tag_ids")
  else .ok (rows.map (fun r =>
    if r.id == i then ⟨r.id, applyToDoUpdate u r.data⟩ else r))

/-- Source `ToDoService.update_todo`: with an empty filtered dictionary it
delegates to `get_todo_by_id` before entering the try block; otherwise,
inside the try block, a missing id raises `ToDoNotFoundError`, which the
blanket `except Exception` converts to an HTTP 500; a failed UPDATE also
becomes an HTTP 500 (or `ToDoIntegrityError` for an `IntegrityError`);
on a successful write the unit of work commits, the row is re-read and
passed to `ToDoFromDB.model_validate`, whose raise the blanket except
converts to an HTTP 500 — after the commit, so the written state
persists. -/
def update_todo (db : TodoDB) (i : Nat) (u : ToDoUpdate) :
    Except SvcError ToDoFromDB × TodoDB :=
  if toDoUpdateDataEmpty u then get_todo_by_id db i
  else
    match repo_get_by_id db.rows i with
    | none => (.error (.http ⟨500, "Failed to update todo"⟩), db)
    | some _ =>
        match todo_repo_update db.rows i u with
        | .error .integrityError => (.error (.app toDoIntegrityErrorClass), db)
        | .error _ => (.error (.http ⟨500, "Failed to update todo"⟩), db)
        | .ok rows2 =>
            match repo_get_by_id rows2 i with
            | none => (.error (.http ⟨500, "Failed to update todo"⟩),
                ⟨rows2, db.nextId⟩)
            | some r2 =>
                match toDoFromDB_model_validate r2 with
                | .error _ => (.error (.http ⟨500, "Failed to update todo"⟩),
                    ⟨rows2, db.nextId⟩)
                | .ok res => (.ok res, ⟨rows2, db.nextId⟩)

/-! ## global_template user schemas and UserService -/

/-- Mapped non-key columns of the `User` ORM model: `username` and
`email`.  The model has no password column. -/
structure UserRow where
  username : String
  email : String
deriving DecidableEq, Repr

/-- Source schema `UserCreate`: `username`, `email`, `password`. -/
structure UserCreate where
  username : String
  email : String
  password : String
deriving DecidableEq, Repr

/-- Source schema `UserUpdate`: every field optional. -/
structure UserUpdate where
  username : Option String
  email : Option String
  password : Option String
deriving DecidableEq, Repr

/-- Source schema `UserFromDB` restricted to its scalar fields. -/
structure UserFromDB where
  id : Nat
  username : String
  email : String
deriving DecidableEq, Repr

/-- Projection of a stored user row to the response schema. -/
def userFromDBOf (r : Row UserRow) : UserFromDB :=
  ⟨r.id, r.data.username, r.data.email⟩

/-- Attribute names of the declaratively mapped `User` class.  There is no
`password` attribute. -/
def userModelAttrs : List String :=
  ["id", "created_at", "updated_at", "username", "email", "todos", "profile"]

/-- Keys of `UserCreate.model_dump()`. -/
def userCreateDumpKeys : List String :=
  ["username", "email", "password"]

/-- Construction `self.model(**obj_data)` for the User repository: the
dumped dictionary always carries the `password` key, which is not a
mapped attribute of `User`. -/
def userCtor (uc : UserCreate) : Except PyErr UserRow :=
  match userCreateDumpKeys.find? (fun k => !userModelAttrs.contains k) with
  | some k => .error (.typeError k)
  | none => .ok ⟨uc.username, uc.email⟩

/-- Source `UserRepository.get_by_email`: first stored row whose email
equals the argument. -/
def user_get_by_email (rows : List (Row UserRow)) (e : String) :
    Option (Row UserRow) :=
  rows.find? (fun r => r.data.email == e)

/-- Stored state of the `users` table. -/
structure UserDB where
  rows : List (Row UserRow)
  nextId : Nat
deriving DecidableEq, Repr

/-- Source `UserService.create_user` (services/user_service.py).  The
duplicate-email check `await self.uow.user.get_by_email(...)` reads the
`user` repository property BEFORE any `async with self.uow` context is
entered; only afterwards does the method open the context and call
`add_one` followed by `commit`, with `IntegrityError` mapped to
`UserIntegrityError` and any other exception to an HTTP 500. -/
def create_user {α : Type} (uow : UnitOfWork α) (db : UserDB)
    (uc : UserCreate) : Except SvcError UserFromDB × UserDB :=
  match uow_user uow with
  | .error name => (.error (.runtime name), db)
  | .ok _ =>
      match user_get_by_email db.rows uc.email with
      | some _ => (.error (.app userAlreadyExistsErrorClass), db)
      | none =>
          match userCtor uc with
          | .error .integrityError => (.error (.app userIntegrityErrorClass), db)
          | .error _ => (.error (.http ⟨500, "Failed to create user"⟩), db)
          | .ok row =>
              let (rows2, next2, r) := repo_add_one db.rows db.nextId row
              (.ok (userFromDBOf r), ⟨rows2, next2⟩)

/-- Forward-referenced annotation name of the `UserFromDB` schema
(api/schemas/user.py): `todos : List["ToDoFromDB"]`. -/
def userFromDBForwardRefs : List String :=
  ["ToDoFromDB"]

/-- Names bound in the user schema module at runtime; the import of
`ToDoFromDB` is guarded by `TYPE_CHECKING` and never executes. -/
def userSchemaRuntimeNames : List String :=
  ["List", "TYPE_CHECKING", "BaseModel", "ConfigDict",
   "UserBase", "UserUpdate", "UserCreate", "UserFromDB"]

/-- Source call `UserFromDB.model_validate(user)`: same situation as
`ToDoFromDB.model_validate` — the unresolved `ToDoFromDB` forward
reference (no `model_rebuild()` anywhere) makes pydantic raise
`PydanticUserError` for every row, and the lazy `todos` relationship
would raise `MissingGreenlet` besides. -/
def userFromDB_model_validate (r : Row UserRow) : Except PyErr UserFromDB :=
  if userFromDBForwardRefs.all (fun n => userSchemaRuntimeNames.contains n) then
    .ok (userFromDBOf r)
  else .error (.pydanticUserError "UserFromDB")

/-- Source `UserService.get_user_by_id`: `None` becomes
`UserNotFoundError`; a found row goes through
`UserFromDB.model_validate`, whose raise propagates uncaught. -/
def get_user_by_id (db : UserDB) (i : Nat) :
    Except SvcError UserFromDB × UserDB :=
  match repo_get_by_id db.rows i with
  | none => (.error (.app userNotFoundErrorClass), db)
  | some r =>
      match userFromDB_model_validate r with
      | .error e => (.error (.py e), db)
      | .ok res => (.ok res, db)

/-- Emptiness test of the filtered `UserUpdate` dictionary. -/
def userUpdateDataEmpty (u : UserUpdate) : Bool :=
  u.username.isNone && u.email.isNone && u.password.isNone

/-- Application of the filtered user update dictionary to one row. -/
def applyUserUpdate (u : UserUpdate) (r : UserRow) : UserRow :=
  { username := u.username.getD r.username
    email := u.email.getD r.email }

/-- The repository UPDATE issued by `update_user`: a present `password`
key is not a mapped column of `User`, so statement compilation fails. -/
def user_repo_update (rows : List (Row UserRow)) (i : Nat) (u : UserUpdate) :
    Except PyErr (List (Row UserRow)) :=
  if u.password.isSome then .error (.compileError "password")
  else .ok (rows.map (fun r =>
    if r.id == i then ⟨r.id, applyUserUpdate u r.data⟩ else r))

/-- Source `UserService.update_user`: same control flow as
`update_todo`, including the post-commit `UserFromDB.model_validate`
raise that the blanket except converts to an HTTP 500 after the write
persisted. -/
def update_user (db : UserDB) (i : Nat) (u : UserUpdate) :
    Except SvcError UserFromDB × UserDB :=
  if userUpdateDataEmpty u then get_user_by_id db i
  else
    match repo_get_by_id db.rows i with
    | none => (.error (.http ⟨500, "Failed to update user"⟩), db)
    | some _ =>
        match user_repo_update db.rows i u with
        | .error .integrityError => (.error (.app userIntegrityErrorClass), db)
        | .error _ => (.error (.http ⟨500, "Failed to update user"⟩), db)
        | .ok rows2 =>
            match repo_get_by_id rows2 i with
            | none => (.error (.http ⟨500, "Failed to update user"⟩),
                ⟨rows2, db.nextId⟩)
            | some r2 =>
                match userFromDB_model_validate r2 with
                | .error _ => (.error (.http ⟨500, "Failed to update user"⟩),
                    ⟨rows2, db.nextId⟩)
                | .ok res => (.ok res, ⟨rows2, db.nextId⟩)

end GT

namespace Mem3115

/-! ## 3/3-1/3-1-15/app: in-memory user registration

`main.py` keeps a module-level `users: list[UserCreate] = []` and a POST
endpoint `create_user` guarding against duplicate emails. -/

/-- Source model `UserCreate` (models/models.py): `name`, `email` (an
`EmailStr`, kept as its validated string), optional `age` and
`is_subscribed`. -/
structure UserCreate where
  name : String
  email : String
  age : Option Nat
  is_subscribed : Bool
deriving DecidableEq, Repr

/-- Source endpoint `create_user` (main.py): raise HTTP 400 when any
stored user already carries the email, otherwise append the new user and
return it.  The pair is the endpoint result and the `users` list after
the call. -/
def create_user (users : List UserCreate) (new_user : UserCreate) :
    Except HTTPError UserCreate × List UserCreate :=
  if users.any (fun user => user.email == new_user.email) then
    (.error ⟨400, "Email already registered."⟩, users)
  else
    (.ok new_user, users ++ [new_user])

/-- State of the `users` list after a sequence of `create_user` calls
starting from the initial empty list. -/
def runCreates (ops : List UserCreate) : List UserCreate :=
  ops.foldl (fun users nu => (create_user users nu).2) []

/-- Uniqueness invariant: no two stored users share an email. -/
def emailsNodup (users : List UserCreate) : Prop :=
  (users.map UserCreate.email).Nodup

end Mem3115

namespace Hdr3311

/-! ## 3/3-3/3-3-11/app/solution_1.py: header validation

`check_headers` validates the presence of User-Agent and Accept-Language
and matches the latter with
re.fullmatch on the raw pattern
(?i:(?:star|[a-z-]\x7b2,5\x7d)(?:;q=digit.digit)?,)+(?:star|[a-z-]\x7b2,5\x7d)(?:;q=digit.digit)?
(star and digit written out here; see solution_1.py lines 43-46).

Since a comma can be produced by no atom of the pattern except its one
literal comma, and a semicolon by no atom except the literal semicolon
opening a quality suffix, a full match decomposes uniquely: the subject
splits on commas into two or more parts (the `+` group contributes at
least one comma-terminated part before the final part), each part splits
on semicolons into a language token and at most one quality suffix.  The
scoped inline flag `(?i: ...)` covers only the repeated group, so only
non-final parts match case-insensitively; the final part is matched
case-sensitively.  The character class `\d` is modelled as the ASCII
digits (header values are latin-1 in practice). -/

/-- Splitting of a character list at every occurrence of a separator,
keeping empty pieces — the list analogue of `str.split`.  The result is
always non-empty. -/
def splitOnChar (sep : Char) (cs : List Char) : List (List Char) :=
  cs.foldr
    (fun c acc =>
      match acc with
      | [] => [[c]]
      | g :: gs => if c == sep then [] :: (g :: gs) else (c :: g) :: gs)
    [[]]

/-- Characters admitted by the class `[a-z-]` of the pattern, with `ci`
selecting the case-insensitive (non-final) occurrence. -/
def isLangChar (ci : Bool) (c : Char) : Bool :=
  c == '-' || (Char.ofNat 97 ≤ c && c ≤ Char.ofNat 122) ||
    (ci && (Char.ofNat 65 ≤ c && c ≤ Char.ofNat 90))

/-- Language token of one entry: a literal star, or 2 to 5 characters of
the class `[a-z-]`. -/
def langTokenMatch (ci : Bool) (cs : List Char) : Bool :=
  cs == ['*'] ||
    (2 ≤ cs.length && cs.length ≤ 5 && cs.all (isLangChar ci))

/-- Quality suffix after the semicolon: `q=` digit `.` digit; under the
case-insensitive group the letter may also be `Q`. -/
def qualityMatch (ci : Bool) (cs : List Char) : Bool :=
  match cs with
  | [q, '=', d1, '.', d2] =>
      (q == 'q' || (ci && q == 'Q')) && d1.isDigit && d2.isDigit
  | _ => false

/-- One comma-separated entry of the pattern: a language token with an
optional quality suffix. -/
def entryMatch (ci : Bool) (cs : List Char) : Bool :=
  match splitOnChar ';' cs with
  | [lang] => langTokenMatch ci lang
  | [lang, qual] => langTokenMatch ci lang && qualityMatch ci qual
  | _ => false

/-- Full match of the Accept-Language value against the source pattern:
at least two comma-separated parts; all parts before the last match the
case-insensitive entry, the last part matches the case-sensitive one. -/
def acceptLanguageFullmatch (s : String) : Bool :=
  decide (2 ≤ (splitOnChar ',' s.toList).length) &&
    (splitOnChar ',' s.toList).dropLast.all (entryMatch true) &&
    (match (splitOnChar ',' s.toList).getLast? with
     | some lastPart => entryMatch false lastPart
     | none => false)

/-- Source `check_headers` (solution_1.py): 400 when User-Agent is
missing, 400 when Accept-Language is missing, 400 when the
Accept-Language value does not fully match the pattern. -/
def check_headers (ua al : Option String) : Except HTTPError Unit :=
  match ua with
  | none => .error ⟨400, "The User-Agent header not found!"⟩
  | some _ =>
      match al with
      | none => .error ⟨400, "The Accept-Language header not found!"⟩
      | some v =>
          if acceptLanguageFullmatch v then .ok ()
          else
            .error ⟨400, "The Accept-Language header is not in the correct format"⟩

/-- Source endpoint `get_headers`: run `check_headers`, then return the
two header values.  After a successful check both headers are present,
so the defaults of `getD` are never used. -/
def get_headers (ua al : Option String) : Except HTTPError (String × String) :=
  match check_headers ua al with
  | .error e => .error e
  | .ok _ => .ok (ua.getD "", al.getD "")

/-- Modelled from the claim wording, for comparison with the source
pattern: comma-separated entries (one or more), each a star or a 2-to-5
character language code (letters of either case or hyphens), each with an
optional `;q=` digit `.` digit quality value. -/
def claimLangChar (c : Char) : Bool :=
  c == '-' || (Char.ofNat 97 ≤ c && c ≤ Char.ofNat 122) ||
    (Char.ofNat 65 ≤ c && c ≤ Char.ofNat 90)

/-- Entry as the claim describes it: a star or a 2-to-5-character
language code, optionally followed by a quality value. -/
def claimEntryMatch (cs : List Char) : Bool :=
  match splitOnChar ';' cs with
  | [lang] =>
      lang == ['*'] ||
        (2 ≤ lang.length && lang.length ≤ 5 && lang.all claimLangChar)
  | [lang, qual] =>
      (lang == ['*'] ||
        (2 ≤ lang.length && lang.length ≤ 5 && lang.all claimLangChar)) &&
      (match qual with
       | ['q', '=', d1, '.', d2] => d1.isDigit && d2.isDigit
       | _ => false)
  | _ => false

/-- Language-range pattern as the claim describes it: comma-separated
entries, every entry as above. -/
def claimLanguageRangeMatch (s : String) : Bool :=
  (splitOnChar ',' s.toList).all claimEntryMatch

end Hdr3311

namespace Auth4311

/-! ## 4/4-3/4-3-11 and step_4/lesson_4_3/task_4_3_11: login with JWT

The stored credential table, bcrypt hashing and JWT encoding live outside
the service logic; `encode` stands for `encode_password`, `verify` for
`verify_password`, `tokenOf` for `jwt.encode` of the claims built by
`create_jwt_token`. -/

/-- Source enum `Role` (models/models.py). -/
inductive Role where
  | admin
  | user
  | guest
deriving DecidableEq, Repr

/-- Source model `User`: username, hashed password, role. -/
structure User where
  username : String
  password : String
  role : Role
deriving DecidableEq, Repr

/-- Source model `AuthRequest`: the login credentials. -/
structure AuthRequest where
  username : String
  password : String
deriving DecidableEq, Repr

/-- Source dictionary `USER_DATA` (db/db.py): three predefined accounts
whose stored passwords are bcrypt hashes of fixed plaintexts. -/
def USER_DATA (encode : String → String) : List (String × User) :=
  [("admin", ⟨"admin", encode "admin", .admin⟩),
   ("user", ⟨"user", encode "password", .user⟩),
   ("guest", ⟨"guest", encode "12345", .guest⟩)]

/-- Source `get_user` (db/db.py): dictionary lookup by username. -/
def get_user (encode : String → String) (username : String) : Option User :=
  ((USER_DATA encode).find? (fun p => p.1 == username)).map (fun p => p.2)

/-- Source `authenticate_user` (security/security.py): `None` when the
username is unknown or the password does not verify against the stored
hash, otherwise the stored user. -/
def authenticate_user (encode : String → String)
    (verify : String → String → Bool) (username password : String) :
    Option User :=
  match get_user encode username with
  | none => none
  | some db_user =>
      if !verify password db_user.password then none else some db_user

/-- Source `create_jwt_token`: JWT encoding of the claims derived from
the user, abstracted as `tokenOf`. -/
def create_jwt_token (tokenOf : User → String) (u : User) : String :=
  tokenOf u

/-- Response body of a successful login. -/
structure TokenResp where
  access_token : String
  token_type : String
deriving DecidableEq, Repr

/-- Source endpoint `login` (routes/login.py): authenticate, raise HTTP
401 with the fixed detail when authentication returned `None`, otherwise
return the bearer token. -/
def login (encode : String → String) (verify : String → String → Bool)
    (tokenOf : User → String) (req : AuthRequest) :
    Except HTTPError TokenResp :=
  match authenticate_user encode verify req.username req.password with
  | none => .error ⟨401, "Invalid credentials"⟩
  | some authenticated_user =>
      .ok ⟨create_jwt_token tokenOf authenticated_user, "bearer"⟩

end Auth4311

end FastAPIRepo

open FastAPIRepo

/-! ## Theorems -/

/-- Claim C4: every exception class of the per-domain hierarchy carries
the fixed HTTP status code of its kind — not-found 404, already-exists
409, validation 422, integrity 400, domain base and application base
500 — and `app_exception_handler` answers an application exception with a
JSON response carrying exactly the status code of the exception's class
while re-raising any other exception. -/
theorem c4_exception_status_codes :
    (GT.toDoNotFoundErrorClass.status_code = 404 ∧
     GT.userNotFoundErrorClass.status_code = 404 ∧
     GT.tagNotFoundErrorClass.status_code = 404 ∧
     GT.userProfileNotFoundErrorClass.status_code = 404 ∧
     GT.dbRecordNotFoundClass.status_code = 404) ∧
    (GT.toDoAlreadyExistsErrorClass.status_code = 409 ∧
     GT.userAlreadyExistsErrorClass.status_code = 409 ∧
     GT.tagAlreadyExistsErrorClass.status_code = 409 ∧
     GT.userProfileAlreadyExistsErrorClass.status_code = 409 ∧
     GT.dbAlreadyExistsErrorClass.status_code = 409) ∧
    (GT.toDoValidationErrorClass.status_code = 422 ∧
     GT.userValidationErrorClass.status_code = 422 ∧
     GT.tagValidationErrorClass.status_code = 422 ∧
     GT.userProfileValidationErrorClass.status_code = 422 ∧
     GT.dbValidationErrorClass.status_code = 422) ∧
    (GT.toDoIntegrityErrorClass.status_code = 400 ∧
     GT.userIntegrityErrorClass.status_code = 400 ∧
     GT.tagIntegrityErrorClass.status_code = 400 ∧
     GT.userProfileIntegrityErrorClass.status_code = 400 ∧
     GT.dbIntegrityErrorClass.status_code = 400) ∧
    (GT.appBaseExceptionClass.status_code = 500 ∧
     GT.toDoExceptionClass.status_code = 500 ∧
     GT.userExceptionClass.status_code = 500 ∧
     GT.tagExceptionClass.status_code = 500 ∧
     GT.userProfileExceptionClass.status_code = 500 ∧
     GT.dbExceptionClass.status_code = 500) ∧
    (∀ (localize : String → String) (cls : GT.ExcClass) (mk : String),
        GT.app_exception_handler localize (.appExc cls mk) =
          .ok ⟨cls.status_code, cls.status_code, localize mk, cls.error_code⟩) ∧
    (∀ (localize : String → String) (t : String),
        GT.app_exception_handler localize (.otherExc t) =
          .error (.otherExc t)) :=
  ⟨⟨rfl, rfl, rfl, rfl, rfl⟩, ⟨rfl, rfl, rfl, rfl, rfl⟩,
   ⟨rfl, rfl, rfl, rfl, rfl⟩, ⟨rfl, rfl, rfl, rfl, rfl⟩,
   ⟨rfl, rfl, rfl, rfl, rfl, rfl⟩,
   fun _ _ _ => rfl, fun _ _ => rfl⟩

/-- Claim C2, behavior of the code at the failing inputs: for EVERY
database state and every valid `ToDoCreate` body, `create_todo` raises
HTTP 500 and leaves the state unchanged, because the dumped dictionary
always carries the `tag_ids` key, which the declarative `ToDo`
constructor rejects; the create-then-fetch round trip of the claim can
therefore never be exercised. -/
theorem c2_create_todo_always_500 :
    (∀ (db : GT.TodoDB) (tc : GT.ToDoCreate),
        GT.create_todo db tc =
          (.error (.http ⟨500, "Failed to create todo"⟩), db)) ∧
    "tag_ids" ∈ GT.toDoCreateDumpKeys ∧
    "tag_ids" ∉ GT.toDoModelAttrs :=
  ⟨fun _ _ => rfl, by decide, by decide⟩

/-- Claim C5: on the freshly constructed global_template `UnitOfWork`
every repository property raises `RuntimeError`, likewise after
`__aexit__` has run on an entered unit of work; consequently
`UserService.create_user`, which reads `uow.user` before entering the
context, fails with that `RuntimeError` for every input and never reaches
the `UserAlreadyExistsError` branch. -/
theorem c5_uninitialized_uow_runtime_error :
    (∀ (α : Type),
        GT.uow_todo (GT.UnitOfWork.init (α := α)) = .error "todo" ∧
        GT.uow_user (GT.UnitOfWork.init (α := α)) = .error "user" ∧
        GT.uow_userprofile (GT.UnitOfWork.init (α := α)) = .error "userprofile" ∧
        GT.uow_tag (GT.UnitOfWork.init (α := α)) = .error "tag") ∧
    (∀ (α : Type) (excRaised : Bool) (durable db0 : α) (u : GT.UnitOfWork α),
        GT.uow_todo (GT.uow_aexit excRaised durable (GT.uow_aenter db0 u)).2.1 =
          .error "todo" ∧
        GT.uow_user (GT.uow_aexit excRaised durable (GT.uow_aenter db0 u)).2.1 =
          .error "user" ∧
        GT.uow_userprofile
          (GT.uow_aexit excRaised durable (GT.uow_aenter db0 u)).2.1 =
          .error "userprofile" ∧
        GT.uow_tag (GT.uow_aexit excRaised durable (GT.uow_aenter db0 u)).2.1 =
          .error "tag") ∧
    (∀ (α : Type) (udb : GT.UserDB) (uc : GT.UserCreate),
        GT.create_user (GT.UnitOfWork.init (α := α)) udb uc =
          (.error (.runtime "user"), udb)) :=
  ⟨fun _ => ⟨rfl, rfl, rfl, rfl⟩,
   fun _ _ _ _ _ => ⟨rfl, rfl, rfl, rfl⟩,
   fun _ _ _ => rfl⟩

/-- Claim C1, counterexample: the step_9/lesson_9_2 `UnitOfWork.__aexit__`
does not commit on a clean exit.  With durable state `0` and a pending
(uncommitted) state `1`, exiting the block without an exception leaves
the durable state at `0`: the pending change is rolled back, not
committed as the claim states for every variant. -/
theorem c1_counterexample_step9_no_commit :
    Step9.uow_aexit (0 : Nat) ⟨1, false⟩ = (0, ⟨0, true⟩) ∧
    (Step9.uow_aexit (0 : Nat) ⟨1, false⟩).1 ≠
      (GT.DbSession.pending (α := Nat) ⟨1, false⟩) :=
  ⟨rfl, by decide⟩

/-- Claim C1 as amended: the global_template `UnitOfWork` commits the
pending state on a clean exit and restores the durable state on an
exceptional exit, closing the session in both cases and clearing its
references; the step_9/lesson_9_2, 5/5-1/5-1-11 and 5/5-2/5-2-14 variants
unconditionally roll back and close on every exit, so their pending
changes persist only through explicit `commit()` calls made inside the
block. -/
theorem c1_unitofwork_exit_behavior :
    ∀ (α : Type) (durable : α) (s : GT.DbSession α),
      GT.uow_aexit_session false durable s = (s.pending, ⟨s.pending, true⟩) ∧
      GT.uow_aexit_session true durable s = (durable, ⟨durable, true⟩) ∧
      Step9.uow_aexit durable s = (durable, ⟨durable, true⟩) ∧
      L5111.uow_aexit durable s = (durable, ⟨durable, true⟩) ∧
      L5214.uow_aexit durable s = (durable, ⟨durable, true⟩) ∧
      (∀ (db0 : α) (u : GT.UnitOfWork α),
        GT.uow_aexit false durable (GT.uow_aenter db0 u) =
          (db0, GT.UnitOfWork.init, some ⟨db0, true⟩) ∧
        GT.uow_aexit true durable (GT.uow_aenter db0 u) =
          (durable, GT.UnitOfWork.init, some ⟨durable, true⟩)) :=
  fun _ _ _ =>
    ⟨rfl, rfl, rfl, rfl, rfl, fun _ _ => ⟨rfl, rfl⟩⟩

/-- Claim C3: deleting a to-do id that matches no stored row raises
`ToDoNotFoundError`, whose fixed status code is 404, and leaves the
stored table unchanged. -/
theorem c3_delete_missing_todo (db : GT.TodoDB) (i : Nat)
    (h : ∀ r ∈ db.rows, GT.Row.id r ≠ i) :
    GT.delete_todo db i = (.error (.app GT.toDoNotFoundErrorClass), db) ∧
    GT.toDoNotFoundErrorClass.status_code = 404 := by
  have hfind : GT.repo_get_by_id db.rows i = none := by
    unfold GT.repo_get_by_id
    refine List.find?_eq_none.mpr ?_
    intro r hr
    simpa using h r hr
  unfold GT.delete_todo
  rw [hfind]
  exact ⟨rfl, rfl⟩

/-- Witness for claim C3 at a concrete table holding one row with id 1,
deleting id 2. -/
theorem c3_delete_missing_todo_witness :
    (∀ r ∈ [(⟨1, ⟨"t", none, false, 1⟩⟩ : GT.Row GT.ToDoRow)],
        GT.Row.id r ≠ 2) ∧
    GT.delete_todo ⟨[⟨1, ⟨"t", none, false, 1⟩⟩], 2⟩ 2 =
      (.error (.app GT.toDoNotFoundErrorClass),
        ⟨[⟨1, ⟨"t", none, false, 1⟩⟩], 2⟩) ∧
    GT.toDoNotFoundErrorClass.status_code = 404 :=
  ⟨by decide,
   (c3_delete_missing_todo ⟨[⟨1, ⟨"t", none, false, 1⟩⟩], 2⟩ 2 (by decide)).1,
   (c3_delete_missing_todo ⟨[⟨1, ⟨"t", none, false, 1⟩⟩], 2⟩ 2 (by decide)).2⟩

/-- One `create_user` call of the in-memory exercise preserves the
email-uniqueness invariant of the stored list. -/
theorem mem3115_step_preserves (users : List Mem3115.UserCreate)
    (nu : Mem3115.UserCreate) (h : Mem3115.emailsNodup users) :
    Mem3115.emailsNodup (Mem3115.create_user users nu).2 := by
  cases hc : users.any (fun user => user.email == nu.email) with
  | true => simpa [Mem3115.create_user, hc] using h
  | false =>
      have hmem : nu.email ∉ users.map Mem3115.UserCreate.email := by
        intro hmem
        rcases List.mem_map.mp hmem with ⟨u, hu, he⟩
        have : users.any (fun user => user.email == nu.email) = true :=
          List.any_eq_true.mpr ⟨u, hu, by simp [he]⟩
        rw [hc] at this
        exact Bool.false_ne_true this
      unfold Mem3115.emailsNodup at h ⊢
      simp only [Mem3115.create_user, hc, Bool.false_eq_true, if_false,
        List.map_append, List.map_cons, List.map_nil]
      refine List.Nodup.append h (List.nodup_singleton _) ?_
      simp only [List.disjoint_left, List.mem_singleton]
      intro a ha hab
      exact hmem (hab ▸ ha)

/-- Claim C6: after any sequence of in-memory `create_user` calls no two
stored users share an email; a call whose email is already stored raises
HTTP 400 and leaves the list unchanged; a call with a fresh email appends
exactly the new user and returns it. -/
theorem c6_inmemory_user_email_unique :
    (∀ ops : List Mem3115.UserCreate,
        Mem3115.emailsNodup (Mem3115.runCreates ops)) ∧
    (∀ (users : List Mem3115.UserCreate) (nu : Mem3115.UserCreate),
        (∃ u ∈ users, u.email = nu.email) →
        Mem3115.create_user users nu =
          (.error ⟨400, "Email already registered."⟩, users)) ∧
    (∀ (users : List Mem3115.UserCreate) (nu : Mem3115.UserCreate),
        (∀ u ∈ users, u.email ≠ nu.email) →
        Mem3115.create_user users nu = (.ok nu, users ++ [nu])) := by
  refine ⟨?_, ?_, ?_⟩
  · intro ops
    have hgen : ∀ (start : List Mem3115.UserCreate),
        Mem3115.emailsNodup start →
        Mem3115.emailsNodup
          (ops.foldl (fun users nu => (Mem3115.create_user users nu).2) start) := by
      induction ops with
      | nil => intro s hs; exact hs
      | cons a l ih => intro s hs; exact ih _ (mem3115_step_preserves s a hs)
    simpa [Mem3115.runCreates] using
      hgen [] (by simp [Mem3115.emailsNodup])
  · rintro users nu ⟨u, hu, he⟩
    have hc : users.any (fun user => user.email == nu.email) = true :=
      List.any_eq_true.mpr ⟨u, hu, by simp [he]⟩
    simp [Mem3115.create_user, hc]
  · intro users nu h
    have hc : users.any (fun user => user.email == nu.email) = false := by
      cases hcase : users.any (fun user => user.email == nu.email) with
      | false => rfl
      | true =>
          rcases List.any_eq_true.mp hcase with ⟨u, hu, hp⟩
          exact absurd (by simpa using hp) (h u hu)
    simp [Mem3115.create_user, hc]

/-- Witness for claim C6: a duplicate email is rejected with 400, a fresh
email is appended and returned. -/
theorem c6_inmemory_user_witness :
    Mem3115.create_user [⟨"a", "a@x", none, false⟩] ⟨"b", "a@x", none, true⟩ =
      (.error ⟨400, "Email already registered."⟩,
        [⟨"a", "a@x", none, false⟩]) ∧
    Mem3115.create_user [] ⟨"a", "a@x", none, false⟩ =
      (.ok ⟨"a", "a@x", none, false⟩, [⟨"a", "a@x", none, false⟩]) :=
  ⟨c6_inmemory_user_email_unique.2.1 _ _
      ⟨⟨"a", "a@x", none, false⟩, by simp, rfl⟩,
   c6_inmemory_user_email_unique.2.2 _ _ (by simp)⟩

/-- Claim C8: the login endpoint returns a bearer token exactly when a
stored user carries the requested username and the password verifies
against that user's stored hash; every failing request — unknown username
or wrong password alike — produces the same fixed 401 response, so the two
failure causes are not distinguishable from the response. -/
theorem c8_login_authentication (encode : String → String)
    (verify : String → String → Bool) (tokenOf : Auth4311.User → String)
    (req : Auth4311.AuthRequest) :
    (∀ u, Auth4311.get_user encode req.username = some u →
        verify req.password u.password = true →
        Auth4311.login encode verify tokenOf req =
          .ok ⟨Auth4311.create_jwt_token tokenOf u, "bearer"⟩) ∧
    ((¬ ∃ u, Auth4311.get_user encode req.username = some u ∧
        verify req.password u.password = true) →
      Auth4311.login encode verify tokenOf req =
        .error ⟨401, "Invalid credentials"⟩) := by
  constructor
  · intro u hu hv
    simp [Auth4311.login, Auth4311.authenticate_user, hu, hv,
      Auth4311.create_jwt_token]
  · intro hne
    unfold Auth4311.login Auth4311.authenticate_user
    cases hu : Auth4311.get_user encode req.username with
    | none => rfl
    | some u =>
        cases hv : verify req.password u.password with
        | false => simp [hv]
        | true => exact absurd ⟨u, hu, hv⟩ hne

/-- Witness for claim C8 with a concrete injective stand-in for the hash
functions: the stored admin credentials log in, a wrong password and an
unknown username both yield the one fixed 401 response. -/
theorem c8_login_witness :
    Auth4311.login (fun s => s ++ "#") (fun p h => h == p ++ "#")
        (fun u => u.username) ⟨"admin", "admin"⟩ =
      .ok ⟨"admin", "bearer"⟩ ∧
    Auth4311.login (fun s => s ++ "#") (fun p h => h == p ++ "#")
        (fun u => u.username) ⟨"admin", "wrong"⟩ =
      .error ⟨401, "Invalid credentials"⟩ ∧
    Auth4311.login (fun s => s ++ "#") (fun p h => h == p ++ "#")
        (fun u => u.username) ⟨"nobody", "pw"⟩ =
      .error ⟨401, "Invalid credentials"⟩ := by
  refine ⟨(c8_login_authentication _ _ _ _).1 ⟨"admin", "admin#", .admin⟩
      rfl rfl,
    (c8_login_authentication _ _ _ _).2 ?_,
    (c8_login_authentication _ _ _ _).2 ?_⟩
  · rintro ⟨u, hu, hv⟩
    have hu2 : some (⟨"admin", "admin" ++ "#", .admin⟩ : Auth4311.User) =
        some u := hu
    rw [← Option.some.inj hu2] at hv
    exact absurd hv (by decide)
  · rintro ⟨u, hu, hv⟩
    simp [Auth4311.get_user, Auth4311.USER_DATA] at hu

/-- Claim C9, counterexample: the Accept-Language value `en` is a
comma-separated list of one entry consisting of a two-character language
code, so it matches the pattern the claim describes, yet the endpoint
answers 400 for it: the source pattern demands at least two
comma-separated entries. -/
theorem c9_counterexample_single_entry :
    Hdr3311.claimLanguageRangeMatch "en" = true ∧
    Hdr3311.acceptLanguageFullmatch "en" = false ∧
    Hdr3311.get_headers (some "Mozilla/5.0") (some "en") =
      .error ⟨400, "The Accept-Language header is not in the correct format"⟩ :=
  ⟨by decide, by decide, rfl⟩

/-- Claim C9 as amended: GET /headers answers 400 when User-Agent is
absent, when Accept-Language is absent, and when the Accept-Language
value fails the source pattern — which demands at least two
comma-separated entries, the final one matched case-sensitively —
and otherwise returns exactly the two header values. -/
theorem c9_headers_behavior (ua al : String) :
    Hdr3311.get_headers none (some al) =
      .error ⟨400, "The User-Agent header not found!"⟩ ∧
    Hdr3311.get_headers none none =
      .error ⟨400, "The User-Agent header not found!"⟩ ∧
    Hdr3311.get_headers (some ua) none =
      .error ⟨400, "The Accept-Language header not found!"⟩ ∧
    (Hdr3311.acceptLanguageFullmatch al = true →
      Hdr3311.get_headers (some ua) (some al) = .ok (ua, al)) ∧
    (Hdr3311.acceptLanguageFullmatch al = false →
      Hdr3311.get_headers (some ua) (some al) =
        .error ⟨400, "The Accept-Language header is not in the correct format"⟩) ∧
    ((Hdr3311.splitOnChar ',' al.toList).length < 2 →
      Hdr3311.acceptLanguageFullmatch al = false) := by
  refine ⟨rfl, rfl, rfl, ?_, ?_, ?_⟩
  · intro h
    simp [Hdr3311.get_headers, Hdr3311.check_headers, h]
  · intro h
    simp [Hdr3311.get_headers, Hdr3311.check_headers, h]
  · intro h
    simp only [Hdr3311.acceptLanguageFullmatch]
    rw [decide_eq_false
      (by omega : ¬ 2 ≤ (Hdr3311.splitOnChar ',' al.toList).length)]
    simp

/-- Witness for claim C9 as amended: a two-entry value is accepted and
returned, a single-entry value is rejected with 400. -/
theorem c9_headers_witness :
    Hdr3311.get_headers (some "Mozilla/5.0") (some "en-US,en;q=0.9") =
      .ok ("Mozilla/5.0", "en-US,en;q=0.9") ∧
    Hdr3311.get_headers (some "Mozilla/5.0") (some "xx") =
      .error ⟨400, "The Accept-Language header is not in the correct format"⟩ :=
  ⟨(c9_headers_behavior "Mozilla/5.0" "en-US,en;q=0.9").2.2.2.1 (by decide),
   (c9_headers_behavior "Mozilla/5.0" "xx").2.2.2.2.1 (by decide)⟩

/-- In a table with pairwise distinct ids, `repo_get_by_id` finds exactly
the member row carrying the requested id. -/
theorem repo_find_of_nodup {σ : Type} (t : List (GT.Row σ)) (i : Nat)
    (r : GT.Row σ) (hnd : (t.map GT.Row.id).Nodup) (hr : r ∈ t)
    (hid : GT.Row.id r = i) : GT.repo_get_by_id t i = some r := by
  induction t with
  | nil => cases hr
  | cons a l ih =>
      rw [List.map_cons, List.nodup_cons] at hnd
      rcases List.mem_cons.mp hr with rfl | hmem
      · unfold GT.repo_get_by_id
        rw [List.find?_cons_of_pos _ (by simp [hid])]
      · have hne : GT.Row.id a ≠ i := by
          intro hEq
          have hin : GT.Row.id r ∈ l.map GT.Row.id :=
            List.mem_map_of_mem _ hmem
          rw [hid, ← hEq] at hin
          exact hnd.1 hin
        unfold GT.repo_get_by_id
        rw [List.find?_cons_of_neg _ (by simp [hne])]
        exact ih hnd.2 hmem

/-- Claim C7: over one ORM-mapped type, `get_by_id` returns the stored
record with the requested id (or `None` when there is none), `delete`
removes exactly the records carrying the id and reports whether at least
one was removed, and `update` touches only the record carrying the id,
setting exactly the fields present in the dictionary. -/
theorem c7_base_repository_crud :
    (∀ (σ : Type) (t : List (GT.Row σ)) (i : Nat) (r : GT.Row σ),
        (t.map GT.Row.id).Nodup → r ∈ t → GT.Row.id r = i →
        GT.repo_get_by_id t i = some r) ∧
    (∀ (σ : Type) (t : List (GT.Row σ)) (i : Nat),
        (∀ r ∈ t, GT.Row.id r ≠ i) → GT.repo_get_by_id t i = none) ∧
    (∀ (σ : Type) (t : List (GT.Row σ)) (i : Nat) (r : GT.Row σ),
        r ∈ (GT.repo_delete t i).1 ↔ r ∈ t ∧ GT.Row.id r ≠ i) ∧
    (∀ (σ : Type) (t : List (GT.Row σ)) (i : Nat),
        (GT.repo_delete t i).2 = true ↔ ∃ r ∈ t, GT.Row.id r = i) ∧
    (∀ (K W : Type) (t : List (GT.Row (K → W))) (i : Nat) (d : K → Option W),
        (GT.repo_update t i d).length = t.length ∧
        (∀ r ∈ t, GT.Row.id r ≠ i → r ∈ GT.repo_update t i d) ∧
        (∀ r ∈ t, GT.Row.id r = i →
            (⟨GT.Row.id r, GT.applyDict d (GT.Row.data r)⟩ : GT.Row (K → W)) ∈
              GT.repo_update t i d) ∧
        (∀ r2 ∈ GT.repo_update t i d,
            (r2 ∈ t ∧ GT.Row.id r2 ≠ i) ∨
            (∃ r ∈ t, GT.Row.id r = i ∧ GT.Row.id r2 = i ∧
              GT.Row.data r2 = GT.applyDict d (GT.Row.data r)))) := by
  refine ⟨?_, ?_, ?_, ?_, ?_⟩
  · intro σ t i r hnd hr hid
    exact repo_find_of_nodup t i r hnd hr hid
  · intro σ t i h
    unfold GT.repo_get_by_id
    refine List.find?_eq_none.mpr ?_
    intro r hr
    simpa using h r hr
  · intro σ t i r
    unfold GT.repo_delete
    simp [List.mem_filter]
  · intro σ t i
    unfold GT.repo_delete
    simp [List.any_eq_true]
  · intro K W t i d
    refine ⟨by simp [GT.repo_update], ?_, ?_, ?_⟩
    · intro r hr hne
      have hmem := List.mem_map_of_mem
        (fun rr : GT.Row (K → W) => if rr.id == i then
          (⟨rr.id, GT.applyDict d rr.data⟩ : GT.Row (K → W)) else rr) hr
      beta_reduce at hmem
      rw [if_neg (by simp [hne] : ¬ ((GT.Row.id r == i) = true))] at hmem
      unfold GT.repo_update
      exact hmem
    · intro r hr hEq
      have hmem := List.mem_map_of_mem
        (fun rr : GT.Row (K → W) => if rr.id == i then
          (⟨rr.id, GT.applyDict d rr.data⟩ : GT.Row (K → W)) else rr) hr
      beta_reduce at hmem
      rw [if_pos (by simp [hEq] : ((GT.Row.id r == i) = true))] at hmem
      unfold GT.repo_update
      exact hmem
    · intro r2 hr2
      unfold GT.repo_update at hr2
      rcases List.mem_map.mp hr2 with ⟨r, hr, hf⟩
      by_cases hid : GT.Row.id r = i
      · right
        refine ⟨r, hr, hid, ?_, ?_⟩
        · rw [← hf, if_pos (by simp [hid] : ((GT.Row.id r == i) = true))]
          exact hid
        · rw [← hf, if_pos (by simp [hid] : ((GT.Row.id r == i) = true))]
      · left
        rw [← hf, if_neg (by simp [hid] : ¬ ((GT.Row.id r == i) = true))]
        exact ⟨hr, hid⟩

/-- Witness for claim C7 on concrete tables: lookup of a present and an
absent id, and membership of the untouched and the merged row after an
update. -/
theorem c7_base_repository_witness :
    GT.repo_get_by_id [(⟨1, 10⟩ : GT.Row Nat), ⟨2, 20⟩] 2 = some ⟨2, 20⟩ ∧
    GT.repo_get_by_id [(⟨1, 10⟩ : GT.Row Nat), ⟨2, 20⟩] 5 = none ∧
    ((⟨1, fun _ => (0 : Nat)⟩ : GT.Row (Bool → Nat)) ∈
      GT.repo_update [(⟨1, fun _ => (0 : Nat)⟩ : GT.Row (Bool → Nat))] 2
        (fun _ => some 5)) ∧
    ((⟨1, GT.applyDict (fun _ => some 5) (fun _ => (0 : Nat))⟩ :
        GT.Row (Bool → Nat)) ∈
      GT.repo_update [(⟨1, fun _ => (0 : Nat)⟩ : GT.Row (Bool → Nat))] 1
        (fun _ => some 5)) :=
  ⟨c7_base_repository_crud.1 Nat _ 2 ⟨2, 20⟩ (by decide) (by decide) rfl,
   c7_base_repository_crud.2.1 Nat _ 5 (by decide),
   (c7_base_repository_crud.2.2.2.2 Bool Nat _ 2 _).2.1 _
     (List.mem_singleton.mpr rfl) (by decide),
   (c7_base_repository_crud.2.2.2.2 Bool Nat _ 1 _).2.2.1 _
     (List.mem_singleton.mpr rfl) rfl⟩

/-- With the `UserFromDB`/`TagFromDB` forward references unresolved at
runtime, `ToDoFromDB.model_validate` raises for every row. -/
theorem toDoFromDB_model_validate_raises (r : GT.Row GT.ToDoRow) :
    GT.toDoFromDB_model_validate r =
      .error (.pydanticUserError "ToDoFromDB") := rfl

/-- With the `ToDoFromDB` forward reference unresolved at runtime,
`UserFromDB.model_validate` raises for every row. -/
theorem userFromDB_model_validate_raises (r : GT.Row GT.UserRow) :
    GT.userFromDB_model_validate r =
      .error (.pydanticUserError "UserFromDB") := rfl

/-- Claim C10, counterexample: an all-None update of a PRESENT id does
not return the stored record — `ToDoFromDB.model_validate` raises
`PydanticUserError` because the schema's `UserFromDB` forward reference
is imported only under `TYPE_CHECKING` and never rebuilt, so the call
raises instead of returning the record the claim promises. -/
theorem c10_counterexample_model_validate :
    GT.update_todo ⟨[⟨1, ⟨"t", some "d", false, 1⟩⟩], 2⟩ 1
        ⟨none, none, none, none, none⟩ =
      (.error (.py (.pydanticUserError "ToDoFromDB")),
        ⟨[⟨1, ⟨"t", some "d", false, 1⟩⟩], 2⟩) ∧
    "UserFromDB" ∉ GT.todoSchemaRuntimeNames ∧
    "UserFromDB" ∈ GT.toDoFromDBForwardRefs :=
  ⟨rfl, by decide, by decide⟩

/-- Claim C10 as amended: an update whose model has every field `None`
issues no write and the stored state is unchanged — the domain not-found
error is raised when the id is absent, and for a present id the response
serialization raises pydantic's not-fully-defined error instead of
returning the record; `None` fields are dropped from the write, so an
update can never reset a stored column to null, while `false` and
empty-string values are applied; and a non-empty update of a present id
touching only mapped columns commits exactly the field-wise merge to the
targeted row, leaving every other row untouched, before the post-commit
re-serialization fails with HTTP 500 — so no update call ever returns a
record. -/
theorem c10_partial_update_semantics :
    (∀ (db : GT.TodoDB) (i : Nat) (u : GT.ToDoUpdate),
        GT.toDoUpdateDataEmpty u = true →
        GT.update_todo db i u = GT.get_todo_by_id db i) ∧
    (∀ (db : GT.TodoDB) (i : Nat), (GT.get_todo_by_id db i).2 = db) ∧
    (∀ (db : GT.TodoDB) (i : Nat),
        GT.repo_get_by_id db.rows i = none →
        GT.get_todo_by_id db i =
          (.error (.app GT.toDoNotFoundErrorClass), db)) ∧
    (∀ (db : GT.TodoDB) (i : Nat) (r : GT.Row GT.ToDoRow),
        GT.repo_get_by_id db.rows i = some r →
        GT.get_todo_by_id db i =
          (.error (.py (.pydanticUserError "ToDoFromDB")), db)) ∧
    (∀ (u : GT.ToDoUpdate) (r : GT.ToDoRow),
        (u.description = none →
          (GT.applyToDoUpdate u r).description = r.description) ∧
        ((GT.applyToDoUpdate u r).description = none →
          r.description = none) ∧
        (∀ s, u.description = some s →
          (GT.applyToDoUpdate u r).description = some s) ∧
        (u.completed = some false →
          (GT.applyToDoUpdate u r).completed = false) ∧
        (u.title = some "" → (GT.applyToDoUpdate u r).title = "")) ∧
    (∀ (db : GT.TodoDB) (i : Nat) (u : GT.ToDoUpdate),
        GT.toDoUpdateDataEmpty u = false →
        GT.repo_get_by_id db.rows i = none →
        GT.update_todo db i u =
          (.error (.http ⟨500, "Failed to update todo"⟩), db)) ∧
    (∀ (db : GT.TodoDB) (i : Nat) (u : GT.ToDoUpdate) (r : GT.Row GT.ToDoRow),
        GT.toDoUpdateDataEmpty u = false → u.tag_ids = none →
        GT.repo_get_by_id db.rows i = some r →
        GT.update_todo db i u =
          (.error (.http ⟨500, "Failed to update todo"⟩),
            ⟨db.rows.map (fun rr =>
              if GT.Row.id rr == i then
                ⟨GT.Row.id rr, GT.applyToDoUpdate u (GT.Row.data rr)⟩
              else rr), db.nextId⟩)) ∧
    (∀ (db : GT.UserDB) (i : Nat) (u : GT.UserUpdate),
        GT.userUpdateDataEmpty u = true →
        GT.update_user db i u = GT.get_user_by_id db i) ∧
    (∀ (db : GT.UserDB) (i : Nat), (GT.get_user_by_id db i).2 = db) ∧
    (∀ (db : GT.UserDB) (i : Nat) (r : GT.Row GT.UserRow),
        GT.repo_get_by_id db.rows i = some r →
        GT.get_user_by_id db i =
          (.error (.py (.pydanticUserError "UserFromDB")), db)) ∧
    (∀ (db : GT.UserDB) (i : Nat) (u : GT.UserUpdate) (r : GT.Row GT.UserRow),
        GT.userUpdateDataEmpty u = false → u.password = none →
        GT.repo_get_by_id db.rows i = some r →
        GT.update_user db i u =
          (.error (.http ⟨500, "Failed to update user"⟩),
            ⟨db.rows.map (fun rr =>
              if GT.Row.id rr == i then
                ⟨GT.Row.id rr, GT.applyUserUpdate u (GT.Row.data rr)⟩
              else rr), db.nextId⟩)) := by
  refine ⟨?_, ?_, ?_, ?_, ?_, ?_, ?_, ?_, ?_, ?_, ?_⟩
  · intro db i u h
    simp [GT.update_todo, h]
  · intro db i
    cases hfind : GT.repo_get_by_id db.rows i with
    | none => simp [GT.get_todo_by_id, hfind]
    | some r =>
        simp [GT.get_todo_by_id, hfind, toDoFromDB_model_validate_raises]
  · intro db i h
    simp [GT.get_todo_by_id, h]
  · intro db i r h
    simp [GT.get_todo_by_id, h, toDoFromDB_model_validate_raises]
  · intro u r
    refine ⟨?_, ?_, ?_, ?_, ?_⟩
    · intro h
      simp [GT.applyToDoUpdate, h]
    · intro h
      cases hd : u.description with
      | none => simpa [GT.applyToDoUpdate, hd] using h
      | some s =>
          rw [GT.applyToDoUpdate] at h
          simp [hd] at h
    · intro s h
      simp [GT.applyToDoUpdate, h]
    · intro h
      simp [GT.applyToDoUpdate, h]
    · intro h
      simp [GT.applyToDoUpdate, h]
  · intro db i u hne hfind
    rw [GT.update_todo]
    rw [if_neg (by simp [hne] : ¬ (GT.toDoUpdateDataEmpty u = true))]
    split
    · rfl
    · rename_i val heq
      rw [hfind] at heq
      simp at heq
  · intro db i u r hne htag hfind
    rw [GT.update_todo]
    rw [if_neg (by simp [hne] : ¬ (GT.toDoUpdateDataEmpty u = true))]
    have hupd : GT.todo_repo_update db.rows i u =
        .ok (db.rows.map (fun rr =>
          if GT.Row.id rr == i then
            ⟨GT.Row.id rr, GT.applyToDoUpdate u (GT.Row.data rr)⟩
          else rr)) := by
      rw [GT.todo_repo_update, if_neg (by simp [htag])]
    split
    · rename_i heq
      rw [hfind] at heq
      simp at heq
    · rename_i val heq
      split
      · rename_i heq2
        rw [hupd] at heq2
        simp at heq2
      · rename_i e heq2
        rw [hupd] at heq2
        simp at heq2
      · rename_i rows2 heq2
        rw [hupd] at heq2
        have hrows2 := Except.ok.inj heq2
        subst hrows2
        split <;> rfl
  · intro db i u h
    simp [GT.update_user, h]
  · intro db i
    cases hfind : GT.repo_get_by_id db.rows i with
    | none => simp [GT.get_user_by_id, hfind]
    | some r =>
        simp [GT.get_user_by_id, hfind, userFromDB_model_validate_raises]
  · intro db i r h
    simp [GT.get_user_by_id, h, userFromDB_model_validate_raises]
  · intro db i u r hne hpw hfind
    rw [GT.update_user]
    rw [if_neg (by simp [hne] : ¬ (GT.userUpdateDataEmpty u = true))]
    have hupd : GT.user_repo_update db.rows i u =
        .ok (db.rows.map (fun rr =>
          if GT.Row.id rr == i then
            ⟨GT.Row.id rr, GT.applyUserUpdate u (GT.Row.data rr)⟩
          else rr)) := by
      rw [GT.user_repo_update, if_neg (by simp [hpw])]
    split
    · rename_i heq
      rw [hfind] at heq
      simp at heq
    · rename_i val heq
      split
      · rename_i heq2
        rw [hupd] at heq2
        simp at heq2
      · rename_i e heq2
        rw [hupd] at heq2
        simp at heq2
      · rename_i rows2 heq2
        rw [hupd] at heq2
        have hrows2 := Except.ok.inj heq2
        subst hrows2
        split <;> rfl

/-- Witness for claim C10 on concrete tables: the all-None update
delegates to the fetch, a present-id fetch raises the pydantic error
with the state unchanged, and a concrete non-empty update (empty-string
title, false completed flag) commits exactly the merged row — keeping the
stored description — before answering 500. -/
theorem c10_partial_update_witness :
    GT.update_todo ⟨[⟨1, ⟨"t", some "d", false, 1⟩⟩], 2⟩ 1
        ⟨none, none, none, none, none⟩ =
      GT.get_todo_by_id ⟨[⟨1, ⟨"t", some "d", false, 1⟩⟩], 2⟩ 1 ∧
    GT.get_todo_by_id ⟨[⟨1, ⟨"t", some "d", false, 1⟩⟩], 2⟩ 1 =
      (.error (.py (.pydanticUserError "ToDoFromDB")),
        ⟨[⟨1, ⟨"t", some "d", false, 1⟩⟩], 2⟩) ∧
    GT.update_todo ⟨[⟨1, ⟨"t", some "d", false, 1⟩⟩], 2⟩ 1
        ⟨some "", none, some false, none, none⟩ =
      (.error (.http ⟨500, "Failed to update todo"⟩),
        ⟨[(⟨1, ⟨"t", some "d", false, 1⟩⟩ : GT.Row GT.ToDoRow)].map (fun rr =>
          if GT.Row.id rr == 1 then
            ⟨GT.Row.id rr, GT.applyToDoUpdate
              ⟨some "", none, some false, none, none⟩ (GT.Row.data rr)⟩
          else rr), 2⟩) ∧
    GT.update_user ⟨[⟨1, ⟨"u", "e"⟩⟩], 2⟩ 1 ⟨none, none, none⟩ =
      GT.get_user_by_id ⟨[⟨1, ⟨"u", "e"⟩⟩], 2⟩ 1 :=
  ⟨c10_partial_update_semantics.1 _ _ _ rfl,
   c10_partial_update_semantics.2.2.2.1 _ 1 ⟨1, ⟨"t", some "d", false, 1⟩⟩ rfl,
   c10_partial_update_semantics.2.2.2.2.2.2.1 _ 1
     ⟨some "", none, some false, none, none⟩
     ⟨1, ⟨"t", some "d", false, 1⟩⟩ rfl rfl rfl,
   c10_partial_update_semantics.2.2.2.2.2.2.2.1 _ _ _ rfl⟩
